import Mathlib

/-!
Verification development for the BubbleUp transient-alert overlay component.

The repository ships the example host application (`examples/example_main.go`)
together with its specification of the alert core.  The alert core itself
(state machine, registry, timer, measurer/wrapper, compositor) is modelled
here from the specification; the host-side definitions (`TestModel`,
`hostView`) are translated from `examples/example_main.go`.
-/

set_option maxRecDepth 4000

/-- Modelled from the spec: the three icon font modes
(`fontMode ∈ {Unicode, NerdFont, ASCII}`). -/
inductive FontMode where
  | Unicode
  | NerdFont
  | ASCII
deriving DecidableEq, Repr

/-- Modelled from the spec: the six fixed screen anchors. -/
inductive Position where
  | TopLeft
  | TopCenter
  | TopRight
  | BottomLeft
  | BottomCenter
  | BottomRight
deriving DecidableEq, Repr

/-- Modelled from the spec: the glyph strings of an alert definition,
one per font mode (`{Unicode, NerdFont, ASCII} → glyph string`). -/
structure Glyphs where
  unicode : String
  nerdfont : String
  ascii : String
deriving DecidableEq, Repr

/-- Modelled from the spec: `AlertDefinition { glyph-by-font-mode, color, label }`. -/
structure AlertDefinition where
  glyphs : Glyphs
  color : String
  label : String
deriving DecidableEq, Repr

/-- Modelled from the spec: the error taxonomy.  `UnknownAlertKind` is the
only error surfaced to a caller; the width/position problems are clamped or
defaulted silently. -/
inductive AlertError where
  | UnknownAlertKind
deriving DecidableEq, Repr

/-- Modelled from the spec: a single transient alert
`{ kind, message, remainingDuration, createdWidth }`. -/
structure Alert where
  kind : String
  message : String
  remainingDuration : Nat
  createdWidth : Nat
deriving DecidableEq, Repr

/-- Modelled from the spec: the alert model - configuration, the current
alert (at most one), and the timer.  The timer's outstanding tick request is
modelled by a generation counter: every armed alert gets a fresh generation,
tick events carry the generation of the alert they belong to, and a tick
whose generation is not the current one has been cancelled. -/
structure AlertModel where
  maxWidth : Nat
  minWidth : Nat
  fontMode : FontMode
  defaultDurationTicks : Nat
  allowEscToClose : Bool
  position : Position
  registry : List (String × AlertDefinition)
  alert : Option Alert
  generation : Nat
deriving DecidableEq, Repr

/-- Modelled from the spec: key of the built-in Info alert kind. -/
def InfoKey : String := "Info"

/-- Modelled from the spec: key of the built-in Warning alert kind. -/
def WarnKey : String := "Warning"

/-- Modelled from the spec: key of the built-in Error alert kind. -/
def ErrorKey : String := "Error"

/-- Modelled from the spec: key of the built-in Debug alert kind. -/
def DebugKey : String := "Debug"

/-- Modelled from the spec: the four built-in kinds, pre-registered at
construction time for all three font modes.  The exact glyph values are
configuration data, not design. -/
def builtinRegistry : List (String × AlertDefinition) :=
  [ (InfoKey, { glyphs := { unicode := "i", nerdfont := "I", ascii := "(i)" },
                color := "blue", label := "Info" }),
    (WarnKey, { glyphs := { unicode := "!", nerdfont := "W", ascii := "(!)" },
                color := "yellow", label := "Warning" }),
    (ErrorKey, { glyphs := { unicode := "x", nerdfont := "E", ascii := "(x)" },
                 color := "red", label := "Error" }),
    (DebugKey, { glyphs := { unicode := "?", nerdfont := "D", ascii := "(?)" },
                 color := "green", label := "Debug" }) ]

/-- Modelled from the spec: `lookup(kind) → definition`, failing with
`UnknownAlertKind` when the kind was never registered (the built-ins are
pre-registered, so membership in the registry decides the call). -/
def lookupKind (reg : List (String × AlertDefinition)) (kind : String) :
    Except AlertError AlertDefinition :=
  match reg.find? (fun p => p.fst == kind) with
  | some p => .ok p.snd
  | none => .error .UnknownAlertKind

/-- Modelled from the spec: `register(kind, definition)` inserts or
overwrites; last writer wins. -/
def registerKind (reg : List (String × AlertDefinition)) (kind : String)
    (d : AlertDefinition) : List (String × AlertDefinition) :=
  (kind, d) :: reg

/-- Modelled from the spec: clamping a value into `[lo, hi]`. -/
def clamp (x lo hi : Nat) : Nat := max lo (min x hi)

/-- Modelled from the spec: the fixed padding added for border and icon when
computing the alert box width. -/
def paddingWidth : Nat := 4

/-- Modelled from the spec: the style engine's display-width measure.  The
style engine is an external collaborator; on plain ASCII text its display
width coincides with the character count used here. -/
def displayWidth (s : String) : Nat := s.length

/-- Modelled from the spec:
`computeWidth(message, minWidth, maxWidth) = clamp(displayWidth(message) + padding, minWidth, maxWidth)`,
parametrised by the display-width measure `dw` supplied by the style engine. -/
def computeWidthWith (dw : String → Nat) (message : String) (minW maxW : Nat) : Nat :=
  clamp (dw message + paddingWidth) minW maxW

/-- Modelled from the spec: `computeWidth` with the style engine's measure. -/
def computeWidth (message : String) (minW maxW : Nat) : Nat :=
  computeWidthWith displayWidth message minW maxW

/-- Modelled from the spec:
`newAlertModel(maxWidth, useNerdFont, defaultDurationTicks)`; the font mode
defaults to NerdFont-or-ASCII based on the flag, the position defaults to
TopCenter, the built-ins are pre-registered, and the model starts Idle. -/
def NewAlertModel (maxWidth : Nat) (useNerdFont : Bool)
    (defaultDurationTicks : Nat) : AlertModel :=
  { maxWidth := maxWidth
    minWidth := 0
    fontMode := if useNerdFont then .NerdFont else .ASCII
    defaultDurationTicks := defaultDurationTicks
    allowEscToClose := false
    position := .TopCenter
    registry := builtinRegistry
    alert := none
    generation := 0 }

/-- Modelled from the spec: builder call `withMinWidth`; an invalid range
(`minWidth > maxWidth`) is clamped by pinning minWidth to maxWidth. -/
def AlertModel.WithMinWidth (m : AlertModel) (w : Nat) : AlertModel :=
  { m with minWidth := min w m.maxWidth }

/-- Modelled from the spec: builder call `withPosition`. -/
def AlertModel.WithPosition (m : AlertModel) (p : Position) : AlertModel :=
  { m with position := p }

/-- Modelled from the spec: builder call `withAllowEscToClose`. -/
def AlertModel.WithAllowEscToClose (m : AlertModel) : AlertModel :=
  { m with allowEscToClose := true }

/-- Modelled from the spec: builder call overriding the font mode to
Unicode. -/
def WithUnicodeGlyphMode (m : AlertModel) : AlertModel :=
  { m with fontMode := .Unicode }

/-- Modelled from the spec: `registerAlertType(kind, definition)` extension
point on the model. -/
def AlertModel.RegisterNewAlertType (m : AlertModel) (kind : String)
    (d : AlertDefinition) : AlertModel :=
  { m with registry := registerKind m.registry kind d }

/-- Modelled from the spec: `hasActiveAlert() → bool`, true iff Showing. -/
def AlertModel.HasActiveAlert (m : AlertModel) : Bool := m.alert.isSome

/-- Modelled from the spec: outgoing asynchronous requests.  The only one
the core emits from `update` is the self-rescheduling tick request, tagged
with the generation of the alert it belongs to. -/
inductive Cmd where
  | requestTick (gen : Nat)
deriving DecidableEq, Repr

/-- Modelled from the spec: the events the model's `update` accepts - tick
events (tagged with the generation they were armed for), the internal
"new alert" event, the early-close key, other keys, and unrecognized
events. -/
inductive Msg where
  | tick (gen : Nat)
  | newAlertMsg (kind message : String)
  | keyEsc
  | keyOther (key : String)
  | other (tag : Nat)
deriving DecidableEq, Repr

/-- Modelled from the spec: `newAlert(kind, message)`: fails with
`UnknownAlertKind` if the kind is unregistered; otherwise computes the
width, arms the timer with the configured duration (a fresh generation
cancels any outstanding tick), and stores the alert, replacing any current
one. -/
def newAlert (m : AlertModel) (kind message : String) :
    Except AlertError (AlertModel × Cmd) :=
  match lookupKind m.registry kind with
  | .error e => .error e
  | .ok _ =>
    let g := m.generation + 1
    .ok ({ m with
            alert := some { kind := kind, message := message,
                            remainingDuration := m.defaultDurationTicks,
                            createdWidth := computeWidth message m.minWidth m.maxWidth }
            generation := g },
         .requestTick g)

/-- Modelled from the spec: `newAlertCmd(kind, message)` - an asynchronous
request that is delivered back to `update` as the internal new-alert
event. -/
def NewAlertCmd (kind message : String) : Msg := .newAlertMsg kind message

/-- Modelled from the spec: `update(event) → (AlertModel, optional outgoing
request)`.  Tick while Showing decrements the remaining duration and clears
the alert at zero (cancelling the timer: no further request); a tick of a
stale generation or with no active alert is ignored; the internal new-alert
event performs `newAlert`, leaving the model unchanged on error; the
early-close key clears the alert only when `allowEscToClose` is set,
otherwise the event is ignored and propagates back to the host; every other
event passes through. -/
def AlertModel.Update (m : AlertModel) (msg : Msg) : AlertModel × Option Cmd :=
  match msg with
  | .tick g =>
    match m.alert with
    | some a =>
      if g = m.generation then
        let r := a.remainingDuration - 1
        if r = 0 then ({ m with alert := none }, none)
        else ({ m with alert := some { a with remainingDuration := r } },
              some (.requestTick g))
      else (m, none)
    | none => (m, none)
  | .newAlertMsg kind message =>
    match newAlert m kind message with
    | .ok (m2, c) => (m2, some c)
    | .error _ => (m, none)
  | .keyEsc =>
    if m.allowEscToClose && m.alert.isSome then ({ m with alert := none }, none)
    else (m, none)
  | .keyOther _ => (m, none)
  | .other _ => (m, none)

/-- Delivering `n` consecutive tick events tagged with generation `g`. -/
def tickN (m : AlertModel) (g : Nat) : Nat → AlertModel
  | 0 => m
  | n + 1 => tickN (AlertModel.Update m (.tick g)).fst g n

/-- Modelled from the spec: hard-breaking a run of characters into chunks of
at most `w` characters (a single word longer than the width is hard-broken). -/
def chunkChars (s : List Char) (w : Nat) : List (List Char) :=
  match s, w with
  | [], _ => []
  | c :: cs, 0 => [c :: cs]
  | c :: cs, w + 1 =>
    (c :: cs).take (w + 1) :: chunkChars ((c :: cs).drop (w + 1)) (w + 1)
termination_by s.length
decreasing_by simp [List.length_drop]; omega

/-- Modelled from the spec: one greedy step of the word wrapper - either the
word extends the current line, or the line is flushed, or an over-long word
is hard-broken. -/
def wrapStep (width : Nat) (acc : List String × String) (word : String) :
    List String × String :=
  let done := acc.fst
  let cur := acc.snd
  if word.length ≤ width then
    if cur = "" then (done, word)
    else if cur.length + 1 + word.length ≤ width then (done, cur ++ " " ++ word)
    else (done ++ [cur], word)
  else
    let flushed := if cur = "" then done else done ++ [cur]
    (flushed ++ (chunkChars word.data width).map (fun l => String.mk l), "")

/-- Modelled from the spec: `wrap(message, width)` - greedy word wrap into an
ordered sequence of lines; finite and deterministic. -/
def wrap (message : String) (width : Nat) : List String :=
  let words := (message.splitOn " ").filter (fun w => w ≠ "")
  let acc := words.foldl (wrapStep width) ([], "")
  let all := if acc.snd = "" then acc.fst else acc.fst ++ [acc.snd]
  if all = [] then [""] else all

/-- Modelled from the spec: the glyph of an alert definition in the given
font mode. -/
def glyphFor (d : AlertDefinition) (mode : FontMode) : String :=
  match mode with
  | .Unicode => d.glyphs.unicode
  | .NerdFont => d.glyphs.nerdfont
  | .ASCII => d.glyphs.ascii

/-- Right-padding a row of cells with blanks up to width `w`. -/
def padTo (l : List Char) (w : Nat) : List Char :=
  l ++ List.replicate (w - l.length) ' '

/-- Modelled from the spec: building the styled alert box as a grid of cells
(border, glyph from the registry, wrapped message) at the alert's created
width.  Styling colors are applied by the external style engine and carry no
cell width, so they are not part of the cell grid. -/
def buildBox (m : AlertModel) (a : Alert) : List (List Char) :=
  let w := a.createdWidth
  let glyph :=
    match lookupKind m.registry a.kind with
    | .ok d => glyphFor d m.fontMode
    | .error _ => ""
  let ls := wrap a.message (w - paddingWidth)
  let top := '+' :: (List.replicate (w - 2) '-' ++ ['+'])
  let bottom := '+' :: (List.replicate (w - 2) '-' ++ ['+'])
  let body := ls.enum.map (fun p =>
    let pre :=
      if p.fst = 0 then glyph.data ++ [' ']
      else List.replicate (glyph.length + 1) ' '
    '|' :: ' ' :: (padTo (pre ++ p.snd.data) (w - 4) ++ [' ', '|']))
  top :: (body ++ [bottom])

/-- The list of the first `n` values of `f`, used to state cell-level facts
about the compositor. -/
def tabulate (n : Nat) (f : Nat → α) : List α := (List.range n).map f

/-- Modelled from the spec: overwriting the cells `[col, col + over.length)`
of a row with the overlay row, clipping at the row's end and leaving every
other cell untouched. -/
def overwriteRow (base over : List Char) (col : Nat) : List Char :=
  tabulate base.length (fun i =>
    if col ≤ i ∧ i - col < over.length then over.getD (i - col) ' '
    else base.getD i ' ')

/-- Modelled from the spec: overwriting the rectangle of cells at origin
`(row, col)` with the box, row by row, clipping at the base's bounds and
never resizing the base. -/
def compositeGrid (base box : List (List Char)) (row col : Nat) :
    List (List Char) :=
  tabulate base.length (fun r =>
    if row ≤ r ∧ r - row < box.length then
      overwriteRow (base.getD r []) (box.getD (r - row) []) col
    else base.getD r [])

/-- The display width of a block of rendered cells (its widest row). -/
def gridWidth (g : List (List Char)) : Nat :=
  g.foldr (fun l acc => max l.length acc) 0

/-- Modelled from the spec: the row/column origin for an anchor, from the
base's and the box's height and width.  Truncated subtraction clips an
oversized box at the top-left corner. -/
def boxOrigin (pos : Position) (baseH baseW boxH boxW : Nat) : Nat × Nat :=
  let row :=
    match pos with
    | .TopLeft | .TopCenter | .TopRight => 0
    | .BottomLeft | .BottomCenter | .BottomRight => baseH - boxH
  let col :=
    match pos with
    | .TopLeft | .BottomLeft => 0
    | .TopCenter | .BottomCenter => (baseW - boxW) / 2
    | .TopRight | .BottomRight => baseW - boxW
  (row, col)

/-- Modelled from the spec: `composite(baseContent, alertBox, position)` -
a pure function placing the box at the anchor's origin and overwriting
exactly the cells it covers. -/
def composite (base box : List (List Char)) (pos : Position) :
    List (List Char) :=
  let o := boxOrigin pos base.length (gridWidth base) box.length (gridWidth box)
  compositeGrid base box o.fst o.snd

/-- Splitting rendered text into its grid of cells. -/
def toGrid (s : String) : List (List Char) :=
  (s.splitOn "\n").map (fun l => l.data)

/-- Joining a grid of cells back into rendered text. -/
def fromGrid (g : List (List Char)) : String :=
  String.intercalate "\n" (g.map (fun l => String.mk l))

/-- Modelled from the spec: `render(baseContent)`: if Idle, returns the base
content unchanged; if Showing, builds the styled box and delegates to the
overlay compositor at the configured position. -/
def AlertModel.Render (m : AlertModel) (baseContent : String) : String :=
  match m.alert with
  | none => baseContent
  | some a => fromGrid (composite (toGrid baseContent) (buildBox m a) m.position)

/-- Modelled from the spec: the alert model's `View` of the host-framework
triad is empty and not meant to be called; all visible output goes through
`Render`. -/
def AlertModel.View (_ : AlertModel) : String := ""

/-- The host framework's dynamically typed model value: the concrete model
behind the interface is either the alert model or some other component's
model. -/
inductive TeaModel where
  | alertModel (m : AlertModel)
  | hostModel (tag : Nat)
deriving DecidableEq, Repr

/-- Modelled from the spec: `Update` as seen through the host framework's
interface - the returned model value is dynamically typed. -/
def UpdateTea (m : AlertModel) (msg : Msg) : TeaModel × Option Cmd :=
  (.alertModel (AlertModel.Update m msg).fst, (AlertModel.Update m msg).snd)

/-- The host's type assertion `outAlert.(bubbleup.AlertModel)`: succeeds
exactly when the dynamic type is the alert model. -/
def asAlertModel : TeaModel → Option AlertModel
  | .alertModel m => some m
  | .hostModel _ => none

/-- The example host's model (`testModel` in `examples/example_main.go`),
restricted to the fields its `View` method reads. -/
structure TestModel where
  content : String
  alert : AlertModel
  KeyPressed : Bool
  PressedKey : String

/-- A run of `n` blanks, as in the Go `strings.Repeat(" ", n)`. -/
def spaces (n : Nat) : String := String.mk (List.replicate n ' ')

/-- The example host's `View` method from `examples/example_main.go`:
renders the alert over the host content via `Render`, then, when a key was
pressed, rewrites the quit line of the legend.  The style engine's
`legendStyle.Render` is the external parameter `styleRender`. -/
def hostView (styleRender : String → String) (m : TestModel) : String :=
  let content := AlertModel.Render m.alert m.content
  if m.KeyPressed then
    let legend := "Keypress: <" ++ m.PressedKey ++ ">"
    let quit := "q - Quit"
    content.replace (quit ++ spaces 40)
      (quit ++ spaces 10 ++ "[" ++ styleRender legend ++ "]" ++
        spaces (30 - legend.length - 2))
  else content

/-- The spec's scenario base model:
`newAlertModel(50, false, 10).withMinWidth(15)`. -/
def m0 : AlertModel := (NewAlertModel 50 false 10).WithMinWidth 15

/-- The scenario model after `newAlert(Debug, "Shortest")`. -/
def mShowing : AlertModel :=
  (AlertModel.Update m0 (.newAlertMsg DebugKey "Shortest")).fst

/-- The scenario model after its alert is replaced by a Warning alert. -/
def mReplaced : AlertModel :=
  (AlertModel.Update mShowing (.newAlertMsg WarnKey "Replace")).fst

/-- A concrete base grid used to instantiate compositor facts. -/
def baseDemo : List (List Char) :=
  [['a', 'b', 'c', 'd', 'e', 'f'],
   ['g', 'h', 'i', 'j', 'k', 'l'],
   ['m', 'n', 'o', 'p', 'q', 'r']]

/-- A concrete overlay box used to instantiate compositor facts. -/
def boxDemo : List (List Char) := [['X', 'Y'], ['Z', 'W']]

/-- The anchor origin `composite` places the box at. -/
def originOf (base box : List (List Char)) (pos : Position) : Nat × Nat :=
  boxOrigin pos base.length (gridWidth base) box.length (gridWidth box)

/-- The cells covered by the box placed at origin `o`: the box's footprint. -/
def inFootprint (o : Nat × Nat) (box : List (List Char)) (r c : Nat) : Prop :=
  o.fst ≤ r ∧ r - o.fst < box.length ∧ o.snd ≤ c ∧
    c - o.snd < (box.getD (r - o.fst) []).length

instance (o : Nat × Nat) (box : List (List Char)) (r c : Nat) :
    Decidable (inFootprint o box r c) := by
  unfold inFootprint; infer_instance

/-- C2: for every display-width measure, message and bounds with
`minW ≤ maxW`, `computeWidth` equals `clamp(displayWidth(M) + padding,
minW, maxW)` and lies in `[minW, maxW]`; the model's `computeWidth` is the
instance at the style engine's display-width measure, not a raw character
count baked into the formula. -/
theorem computeWidth_spec (dw : String → Nat) (M : String) (minW maxW : Nat)
    (h : minW ≤ maxW) :
    computeWidthWith dw M minW maxW = clamp (dw M + paddingWidth) minW maxW ∧
    minW ≤ computeWidthWith dw M minW maxW ∧
    computeWidthWith dw M minW maxW ≤ maxW ∧
    computeWidth M minW maxW = computeWidthWith displayWidth M minW maxW := by
  refine ⟨rfl, ?_, ?_, rfl⟩
  all_goals simp only [computeWidthWith, clamp]
  all_goals omega

/-- Witness for C2 at a concrete measure, message and bounds. -/
theorem computeWidth_spec_witness :
    computeWidthWith String.length "hello" 10 50 =
      clamp (String.length "hello" + paddingWidth) 10 50 ∧
    10 ≤ computeWidthWith String.length "hello" 10 50 ∧
    computeWidthWith String.length "hello" 10 50 ≤ 50 ∧
    computeWidth "hello" 10 50 = computeWidthWith displayWidth "hello" 10 50 :=
  computeWidth_spec String.length "hello" 10 50 (by decide)

/-- C3: `Render` on an Idle model (no active alert) returns the base
content unchanged, byte-for-byte. -/
theorem render_idle_identity (m : AlertModel) (baseContent : String)
    (h : m.HasActiveAlert = false) :
    AlertModel.Render m baseContent = baseContent := by
  unfold AlertModel.Render
  cases ha : m.alert with
  | none => rfl
  | some a => simp [AlertModel.HasActiveAlert, ha] at h

/-- Witness for C3 at a concrete Idle model and base content. -/
theorem render_idle_identity_witness :
    (NewAlertModel 50 false 10).HasActiveAlert = false ∧
    AlertModel.Render (NewAlertModel 50 false 10) "hello\nworld" =
      "hello\nworld" :=
  ⟨by decide, render_idle_identity (NewAlertModel 50 false 10) "hello\nworld"
    (by decide)⟩

/-- C5: a kind that was never registered (the built-ins are pre-registered,
so this also excludes them) makes `newAlert` fail with `UnknownAlertKind`,
and the new-alert event leaves the model unchanged - an Idle model stays
Idle and a Showing model keeps its old alert intact. -/
theorem newAlert_unknown_kind (m : AlertModel) (kind message : String)
    (h : ∀ p ∈ m.registry, p.fst ≠ kind) :
    newAlert m kind message = .error .UnknownAlertKind ∧
    AlertModel.Update m (.newAlertMsg kind message) = (m, none) := by
  have hf : m.registry.find? (fun p => p.fst == kind) = none := by
    apply List.find?_eq_none.mpr
    intro p hp
    simpa using h p hp
  constructor
  · simp [newAlert, lookupKind, hf]
  · simp [AlertModel.Update, newAlert, lookupKind, hf]

/-- Witness for C5: the kind "custom-unregistered" on the Idle scenario
model. -/
theorem newAlert_unknown_kind_witness :
    newAlert m0 "custom-unregistered" "msg" = .error .UnknownAlertKind ∧
    AlertModel.Update m0 (.newAlertMsg "custom-unregistered" "msg") =
      (m0, none) :=
  newAlert_unknown_kind m0 "custom-unregistered" "msg" (by decide)

/-- C6: with `allowEscToClose` set and an alert active, one early-close
event clears the alert and cancels the timer (no outgoing request),
regardless of the remaining ticks; with the flag unset the event leaves the
model unchanged and is handed back to the host. -/
theorem escape_close_spec (m : AlertModel) :
    (m.allowEscToClose = true → m.alert.isSome = true →
      AlertModel.Update m .keyEsc = ({ m with alert := none }, none) ∧
      (AlertModel.Update m .keyEsc).fst.HasActiveAlert = false) ∧
    (m.allowEscToClose = false → AlertModel.Update m .keyEsc = (m, none)) := by
  constructor
  · intro h1 h2
    constructor
    · simp [AlertModel.Update, h1, h2]
    · simp [AlertModel.Update, h1, h2, AlertModel.HasActiveAlert]
  · intro h1
    simp [AlertModel.Update, h1]

/-- Witness for C6: the Showing scenario model with and without the flag. -/
theorem escape_close_spec_witness :
    (AlertModel.Update (AlertModel.WithAllowEscToClose mShowing)
        .keyEsc).fst.HasActiveAlert = false ∧
    AlertModel.Update mShowing .keyEsc = (mShowing, none) :=
  ⟨((escape_close_spec (AlertModel.WithAllowEscToClose mShowing)).1
      (by decide) (by decide)).2,
   (escape_close_spec mShowing).2 (by decide)⟩

/-- C8: after `newAlertModel(50, false, 10).withMinWidth(15)` and
`newAlert(Debug, "Shortest")` the model is Showing, the computed width is
exactly 15 (the message is shorter than minWidth) and the remaining
duration is exactly 10. -/
theorem scenario_debug_shortest :
    newAlert m0 DebugKey "Shortest" = .ok (mShowing, .requestTick 1) ∧
    mShowing.HasActiveAlert = true ∧
    mShowing.alert = some { kind := DebugKey, message := "Shortest",
                            remainingDuration := 10, createdWidth := 15 } :=
  ⟨rfl, by decide, by decide⟩

/-- C9: through the host framework's interface, the model returned by
`Update` always has dynamic type `AlertModel`, so the host's type
assertion succeeds on every input. -/
theorem update_dynamic_type (m : AlertModel) (msg : Msg) :
    asAlertModel (UpdateTea m msg).fst = some (AlertModel.Update m msg).fst :=
  rfl

/-- C10: the alert model's `View` returns the empty string on every model,
and (when no key legend is being rewritten) the host's `View` output is
exactly `Render` applied to the host content - the visible alert output
goes through `Render`, not through the alert model's `View`. -/
theorem view_empty_render_used (m : AlertModel) :
    AlertModel.View m = "" ∧
    (∀ (styleRender : String → String) (tm : TestModel),
      tm.KeyPressed = false →
      hostView styleRender tm = AlertModel.Render tm.alert tm.content) := by
  refine ⟨rfl, ?_⟩
  intro sr tm h
  simp [hostView, h]

/-- Witness for C10 at a concrete host model. -/
theorem view_empty_render_used_witness :
    AlertModel.View mShowing = "" ∧
    hostView id { content := "base", alert := m0, KeyPressed := false,
                  PressedKey := "" } =
      AlertModel.Render m0 "base" :=
  ⟨(view_empty_render_used mShowing).1,
   (view_empty_render_used mShowing).2 id
     { content := "base", alert := m0, KeyPressed := false,
       PressedKey := "" } rfl⟩

/-- One tick of the current generation on a Showing model with at least two
remaining units decrements the countdown and reschedules the timer. -/
theorem tick_step_active (m : AlertModel) (a : Alert) (ha : m.alert = some a)
    (h2 : 2 ≤ a.remainingDuration) :
    AlertModel.Update m (.tick m.generation) =
      ({ m with alert := some { a with
            remainingDuration := a.remainingDuration - 1 } },
       some (.requestTick m.generation)) := by
  unfold AlertModel.Update
  rw [ha]
  have hz : ¬(a.remainingDuration - 1 = 0) := by omega
  simp [hz]

/-- The final tick of the current generation (one remaining unit) clears
the alert and schedules nothing further. -/
theorem tick_step_last (m : AlertModel) (a : Alert) (ha : m.alert = some a)
    (h1 : a.remainingDuration ≤ 1) :
    AlertModel.Update m (.tick m.generation) =
      ({ m with alert := none }, none) := by
  unfold AlertModel.Update
  rw [ha]
  have hz : a.remainingDuration - 1 = 0 := by omega
  simp [hz]

/-- Before the countdown runs out, `k` ticks of the current generation
leave the alert in place with `k` fewer remaining units, and preserve the
generation. -/
theorem tickN_partial (k : Nat) : ∀ (m : AlertModel) (a : Alert),
    m.alert = some a → k < a.remainingDuration →
    (tickN m m.generation k).alert =
      some { a with remainingDuration := a.remainingDuration - k } ∧
    (tickN m m.generation k).generation = m.generation := by
  induction k with
  | zero =>
    intro m a ha _
    simpa [tickN] using ha
  | succ k ih =>
    intro m a ha hk
    have hstep := tick_step_active m a ha (by omega)
    have hgen : ({ m with alert := some { a with
        remainingDuration := a.remainingDuration - 1 } } :
        AlertModel).generation = m.generation := rfl
    show (tickN (AlertModel.Update m (.tick m.generation)).fst
          m.generation k).alert =
        some { a with remainingDuration := a.remainingDuration - (k + 1) } ∧
      (tickN (AlertModel.Update m (.tick m.generation)).fst
        m.generation k).generation = m.generation
    rw [hstep]
    have := ih { m with alert := some { a with
        remainingDuration := a.remainingDuration - 1 } }
      { a with remainingDuration := a.remainingDuration - 1 }
      rfl (by simp; omega)
    rw [hgen] at this
    refine ⟨?_, this.2⟩
    rw [this.1]
    have : a.remainingDuration - 1 - k = a.remainingDuration - (k + 1) := by
      omega
    simp [this]

/-- Exactly `remainingDuration` ticks of the current generation clear the
alert. -/
theorem tickN_drain (n : Nat) : ∀ (m : AlertModel) (a : Alert),
    m.alert = some a → a.remainingDuration = n → 0 < n →
    (tickN m m.generation n).alert = none := by
  induction n with
  | zero => intro m a _ _ h; omega
  | succ n ih =>
    intro m a ha hrem _
    by_cases hn : n = 0
    · subst hn
      have hstep := tick_step_last m a ha (by omega)
      show (tickN (AlertModel.Update m (.tick m.generation)).fst
          m.generation 0).alert = none
      rw [hstep]
      rfl
    · have hstep := tick_step_active m a ha (by omega)
      show (tickN (AlertModel.Update m (.tick m.generation)).fst
          m.generation (n)).alert = none
      rw [hstep]
      have hgen : ({ m with alert := some { a with
          remainingDuration := a.remainingDuration - 1 } } :
          AlertModel).generation = m.generation := rfl
      rw [← hgen]
      exact ih _ { a with remainingDuration := a.remainingDuration - 1 }
        rfl (by simp; omega) (by omega)

/-- C1: from a freshly armed alert, exactly `defaultDurationTicks` tick
events of its own generation (no intervening new alert or close) clear the
alert, so `hasActiveAlert()` becomes false - before that the alert stays
active, and the final tick cancels the timer (no further tick request). -/
theorem alert_expires_after_duration (m : AlertModel) (kind message : String)
    (m1 : AlertModel) (c : Cmd)
    (h : newAlert m kind message = .ok (m1, c))
    (hd : 0 < m.defaultDurationTicks) :
    (tickN m1 m1.generation m.defaultDurationTicks).alert = none ∧
    (tickN m1 m1.generation m.defaultDurationTicks).HasActiveAlert = false ∧
    (∀ k, k < m.defaultDurationTicks →
      (tickN m1 m1.generation k).HasActiveAlert = true) ∧
    (AlertModel.Update (tickN m1 m1.generation (m.defaultDurationTicks - 1))
      (.tick m1.generation)).snd = none := by
  unfold newAlert at h
  cases hl : lookupKind m.registry kind with
  | error e => rw [hl] at h; cases h
  | ok d =>
    rw [hl] at h
    simp only [Except.ok.injEq, Prod.mk.injEq] at h
    obtain ⟨hm1, -⟩ := h
    have ha : m1.alert = some (Alert.mk kind message m.defaultDurationTicks
        (computeWidth message m.minWidth m.maxWidth)) := by
      rw [← hm1]
    have hdrain := tickN_drain m.defaultDurationTicks m1 _ ha rfl hd
    refine ⟨hdrain, ?_, ?_, ?_⟩
    · simp [AlertModel.HasActiveAlert, hdrain]
    · intro k hk
      have := tickN_partial k m1 _ ha (by simpa using hk)
      simp [AlertModel.HasActiveAlert, this.1]
    · have hpart := tickN_partial (m.defaultDurationTicks - 1) m1 _ ha
        (by show m.defaultDurationTicks - 1 < m.defaultDurationTicks; omega)
      have hlast := tick_step_last
        (tickN m1 m1.generation (m.defaultDurationTicks - 1)) _ hpart.1
        (by show m.defaultDurationTicks - (m.defaultDurationTicks - 1) ≤ 1
            omega)
      rw [hpart.2] at hlast
      rw [hlast]

/-- Witness for C1: the scenario alert (duration 10) is gone after exactly
10 ticks. -/
theorem alert_expires_after_duration_witness :
    (tickN mShowing mShowing.generation 10).alert = none ∧
    (tickN mShowing mShowing.generation 10).HasActiveAlert = false :=
  ⟨(alert_expires_after_duration m0 DebugKey "Shortest" mShowing
      (.requestTick 1) rfl (by decide)).1,
   (alert_expires_after_duration m0 DebugKey "Shortest" mShowing
      (.requestTick 1) rfl (by decide)).2.1⟩

/-- C7: a tick belonging to a dismissed or replaced alert never changes the
model - a tick delivered on an Idle model is a no-op, a tick of a stale
generation is a no-op, and after arming a new alert the previous alert's
tick (tagged with the pre-arming generation) is a no-op on the replacement,
so it cannot decrement the replacement's countdown. -/
theorem stale_tick_ignored (m : AlertModel) (g : Nat) :
    (m.alert = none → AlertModel.Update m (.tick g) = (m, none)) ∧
    (g ≠ m.generation → AlertModel.Update m (.tick g) = (m, none)) ∧
    (∀ kind message m2 c, newAlert m kind message = .ok (m2, c) →
      AlertModel.Update m2 (.tick m.generation) = (m2, none)) := by
  refine ⟨?_, ?_, ?_⟩
  · intro h
    simp [AlertModel.Update, h]
  · intro h
    cases ha : m.alert with
    | none => simp [AlertModel.Update, ha]
    | some a => simp [AlertModel.Update, ha, h]
  · intro kind message m2 c h
    unfold newAlert at h
    cases hl : lookupKind m.registry kind with
    | error e => rw [hl] at h; cases h
    | ok d =>
      rw [hl] at h
      simp only [Except.ok.injEq, Prod.mk.injEq] at h
      obtain ⟨hm2, -⟩ := h
      have ha : m2.alert = some (Alert.mk kind message m.defaultDurationTicks
          (computeWidth message m.minWidth m.maxWidth)) := by rw [← hm2]
      have hg : m2.generation = m.generation + 1 := by rw [← hm2]
      have hne : ¬(m.generation = m2.generation) := by omega
      simp [AlertModel.Update, ha, hne]

/-- Witness for C7: an Idle model, a stale-generation tick on the Showing
scenario model, and the old alert's tick after replacement. -/
theorem stale_tick_ignored_witness :
    AlertModel.Update m0 (.tick 0) = (m0, none) ∧
    AlertModel.Update mShowing (.tick 0) = (mShowing, none) ∧
    AlertModel.Update mReplaced (.tick mShowing.generation) =
      (mReplaced, none) :=
  ⟨(stale_tick_ignored m0 0).1 rfl,
   (stale_tick_ignored mShowing 0).2.1 (by decide),
   (stale_tick_ignored mShowing 0).2.2 WarnKey "Replace" mReplaced
     (.requestTick 2) rfl⟩

/-- The length of a tabulated list. -/
theorem length_tabulate (n : Nat) (f : Nat → α) : (tabulate n f).length = n := by
  simp [tabulate]

/-- Reading a tabulated list inside its bounds yields the generating
function. -/
theorem getD_tabulate (n : Nat) (f : Nat → α) (i : Nat) (d : α) (h : i < n) :
    (tabulate n f).getD i d = f i := by
  rw [List.getD_eq_getElem?_getD]
  simp [tabulate, List.getElem?_map, List.getElem?_range, h]

/-- C4: `composite` never resizes the base (same number of rows, each row
the same length), leaves every cell outside the box's footprint at the
anchor origin byte-identical to the input, and overwrites every in-bounds
cell inside the footprint with the box's cell - an overflowing placement is
thereby clipped to the base's bounds. -/
theorem composite_locality (base box : List (List Char)) (pos : Position) :
    (composite base box pos).length = base.length ∧
    (∀ r, r < base.length →
      ((composite base box pos).getD r []).length =
        (base.getD r []).length) ∧
    (∀ r c, r < base.length → c < (base.getD r []).length →
      ¬ inFootprint (originOf base box pos) box r c →
      ((composite base box pos).getD r []).getD c ' ' =
        (base.getD r []).getD c ' ') ∧
    (∀ r c, r < base.length → c < (base.getD r []).length →
      inFootprint (originOf base box pos) box r c →
      ((composite base box pos).getD r []).getD c ' ' =
        (box.getD (r - (originOf base box pos).fst) []).getD
          (c - (originOf base box pos).snd) ' ') := by
  have hc : composite base box pos =
      compositeGrid base box (originOf base box pos).fst
        (originOf base box pos).snd := rfl
  refine ⟨?_, ?_, ?_, ?_⟩
  · rw [hc]
    exact length_tabulate _ _
  · intro r hr
    rw [hc]
    unfold compositeGrid
    rw [getD_tabulate _ _ _ _ hr]
    by_cases hrow : (originOf base box pos).fst ≤ r ∧
        r - (originOf base box pos).fst < box.length
    · simp only [if_pos hrow]
      exact length_tabulate _ _
    · simp only [if_neg hrow]
  · intro r c hr hcl hnf
    rw [hc]
    unfold compositeGrid
    rw [getD_tabulate _ _ _ _ hr]
    by_cases hrow : (originOf base box pos).fst ≤ r ∧
        r - (originOf base box pos).fst < box.length
    · simp only [if_pos hrow]
      unfold overwriteRow
      rw [getD_tabulate _ _ _ _ hcl]
      have hcol : ¬((originOf base box pos).snd ≤ c ∧
          c - (originOf base box pos).snd <
            (box.getD (r - (originOf base box pos).fst) []).length) := by
        unfold inFootprint at hnf
        tauto
      simp only [if_neg hcol]
    · simp only [if_neg hrow]
  · intro r c hr hcl hf
    unfold inFootprint at hf
    rw [hc]
    unfold compositeGrid
    rw [getD_tabulate _ _ _ _ hr]
    have hrow : (originOf base box pos).fst ≤ r ∧
        r - (originOf base box pos).fst < box.length := ⟨hf.1, hf.2.1⟩
    simp only [if_pos hrow]
    unfold overwriteRow
    rw [getD_tabulate _ _ _ _ hcl]
    have hcol : (originOf base box pos).snd ≤ c ∧
        c - (originOf base box pos).snd <
          (box.getD (r - (originOf base box pos).fst) []).length :=
      ⟨hf.2.2.1, hf.2.2.2⟩
    simp only [if_pos hcol]

/-- Witness for C4: a cell outside the footprint is untouched and a cell
inside it carries the box content, on a concrete 3x6 base and 2x2 box. -/
theorem composite_locality_witness :
    ((composite baseDemo boxDemo .TopLeft).getD 2 []).getD 1 ' ' =
      (baseDemo.getD 2 []).getD 1 ' ' ∧
    ((composite baseDemo boxDemo .TopLeft).getD 0 []).getD 0 ' ' =
      (boxDemo.getD 0 []).getD 0 ' ' :=
  ⟨(composite_locality baseDemo boxDemo .TopLeft).2.2.1 2 1 (by decide)
      (by decide) (by decide),
   (composite_locality baseDemo boxDemo .TopLeft).2.2.2 0 0 (by decide)
      (by decide) (by decide)⟩
